import Mathlib

/-!
Verification of `md2pdf.py` (Markdown to PDF converter, v1.1).

The development shallowly embeds the parts of the script that the claims
are about:

* the string-level compose stage of the generated conversion script
  (`html_template.replace('{{content}}', html_content)`, lines 291-302);
* the output-path derivation `md_path.with_suffix('.pdf')` (line 454);
* the process lifecycle: the global flags `cleanup_required` /
  `venv_created`, `cleanup_environment`, `signal_handler`,
  `create_virtual_environment`, `install_dependencies`,
  `convert_markdown_to_pdf`, `check_system_packages`,
  `validate_markdown_file` and `main`.

External effects (subprocess outcomes, user responses, the success of
directory removals) are inputs supplied by an `Oracle`; the filesystem is
modelled by the record `FS` holding exactly the entities the script
touches: the `VENV_DIR` directory, the output PDF file and the temporary
conversion scripts.  Python exceptions are modelled by `Except` values
whose error component carries the state at raise time; `sys.exit(n)`
raises `SystemExit`, which `main`'s handlers (which catch only
`FileNotFoundError`/`PermissionError`/`ValueError`,
`subprocess.CalledProcessError` and `Exception`) never catch.
-/

namespace Md2Pdf

/-! ## Compose stage (lines 271-302 of the generated conversion script)

Strings are modelled as `List Char`.  `strReplace old new s` is Python's
`s.replace(old, new)` for a non-empty `old` (the call site uses the fixed
token `'{{content}}'`): scan left to right, replace each non-overlapping
occurrence. -/

/-- Python `s.replace(old, new)` for non-empty `old`: left-to-right scan
replacing non-overlapping occurrences; the replacement text is not
re-scanned. -/
def strReplace (old new : List Char) (s : List Char) : List Char :=
  match s with
  | [] => []
  | c :: rest =>
    if h : old ≠ [] ∧ old.isPrefixOf (c :: rest) then
      new ++ strReplace old new ((c :: rest).drop old.length)
    else
      c :: strReplace old new rest
termination_by s.length
decreasing_by
  · have h1 : 0 < old.length := List.length_pos.mpr h.1
    simp only [List.length_drop, List.length_cons]
    omega
  · simp only [List.length_cons]
    omega

/-- Number of positions of `s` at which `t` occurs (as a contiguous
substring). -/
def countOccs (t s : List Char) : Nat :=
  (List.range (s.length + 1)).countP (fun i => t.isPrefixOf (s.drop i))

/-- The placeholder token `'{{content}}'` of the generated script
(line 302; the outer f-string spelling `{{{{content}}}}` materializes to
this literal, per the comment at lines 264-270). -/
def contentToken : List Char := "\x7b\x7bcontent\x7d\x7d".toList

/-- The fixed container document text before the placeholder (lines
291-297 of the generated script, up to and including the newline after
`<body>`). -/
def templatePre : List Char :=
  "<!DOCTYPE html>\n<html lang=\"en\">\n<head>\n    <meta charset=\"UTF-8\">\n    <title>Document</title>\n</head>\n<body>\n".toList

/-- The fixed container document text after the placeholder (lines
298-300 of the generated script). -/
def templatePost : List Char := "\n</body>\n</html>".toList

/-- `html_template` of the generated conversion script (lines 291-300):
the full container document, holding the placeholder token once. -/
def htmlTemplate : List Char :=
  "<!DOCTYPE html>\n<html lang=\"en\">\n<head>\n    <meta charset=\"UTF-8\">\n    <title>Document</title>\n</head>\n<body>\n\x7b\x7bcontent\x7d\x7d\n</body>\n</html>".toList

/-- Line 302: `full_html = html_template.replace('{{content}}', html_content)`. -/
def composeDocument (htmlContent : List Char) : List Char :=
  strReplace contentToken htmlContent htmlTemplate

/-! ## Output-path derivation (line 454)

`md_path.with_suffix('.pdf')` for a single-component path, translated
from CPython's `pathlib.PurePath.suffix` / `with_suffix` (the suffix
argument `'.pdf'` is a valid non-empty suffix, so the validation branches
of `with_suffix` do not fire). -/

/-- Python `name.rfind('.')`: index of the last `'.'`, if any. -/
def rfindDot (name : List Char) : Option Nat :=
  match name.reverse.findIdx? (fun c => c == '.') with
  | none => none
  | some j => some (name.length - 1 - j)

/-- CPython `PurePath.suffix`: the part of the name from its last dot,
provided that dot is neither the leading character nor the final one. -/
def pathSuffix (name : List Char) : List Char :=
  match rfindDot name with
  | none => []
  | some i => if 0 < i ∧ i < name.length - 1 then name.drop i else []

/-- CPython `PurePath.with_suffix` on a single-component path: drop the
old suffix (if any) and append the new one. -/
def withSuffix (name suffix : List Char) : List Char :=
  let old := pathSuffix name
  if old = [] then name ++ suffix
  else name.take (name.length - old.length) ++ suffix

/-! ## Lifecycle model -/

/-- Python exception classes distinguished by `main`'s handlers.
`sysExit n` is `SystemExit(n)`, raised by `sys.exit(n)`; it does not
derive from `Exception`, so no handler of `main` catches it. -/
inductive Err where
  | fileNotFound
  | valueError
  | permissionError
  | calledProcessError
  | osError
  | sysExit (code : Nat)
deriving DecidableEq

/-- Outcome of the `python -m venv VENV_DIR` subprocess: success, failure
after the directory was (partially) created, or failure with no directory
created. -/
inductive VenvRes where
  | ok
  | failLeavingDir
  | failNoDir
deriving DecidableEq

/-- The filesystem entities the script touches.  `venv = some g` means
`VENV_DIR` exists and holds the artifacts written by provisioning attempt
`g`; `target` is the output PDF (`none` = absent); `temp` lists the
temporary conversion scripts currently on disk. -/
structure FS where
  venv : Option Nat
  target : Option (List Nat)
  temp : List Nat
deriving DecidableEq

/-- Process state: the filesystem plus the two global flags declared at
lines 54-55. -/
structure St where
  fs : FS
  cleanup_required : Bool
  venv_created : Bool
deriving DecidableEq

/-- State at interpreter start-up: both globals `False` (lines 54-55). -/
def initSt : St :=
  { fs := { venv := none, target := none, temp := [] },
    cleanup_required := false, venv_created := false }

/-- The test `response.lower() == 'y'` applied to the user's reply
(lines 173 and 459 use `response.lower() != 'y'` to decline). -/
def isYes (resp : List Char) : Bool := resp.map Char.toLower == ['y']

/-- Body of `cleanup_environment` past the flag guard (lines 420-427): if
`VENV_DIR` exists, try `shutil.rmtree`; a removal failure is caught and
only logged.  Neither flag is assigned anywhere in the function. -/
def removeVenvDir (st : St) (rmOk : Bool) : St :=
  if st.fs.venv.isSome then
    if rmOk then { st with fs := { st.fs with venv := none } } else st
  else st

/-- Lines 414-427: `cleanup_environment` returns immediately unless both
`cleanup_required` and `venv_created` are true, and otherwise runs the
removal body. -/
def cleanup_environment (st : St) (rmOk : Bool) : St :=
  if !st.cleanup_required || !st.venv_created then st
  else removeVenvDir st rmOk

/-- Lines 61-67: the SIGINT handler calls `cleanup_environment()` and
then `sys.exit(0)`.  The result is the process exit code paired with the
final state. -/
def signal_handler (st : St) (rmOk : Bool) : Nat × St :=
  (0, cleanup_environment st rmOk)

/-- Lines 227-247: existence, regular-file and readability checks, each
raising its own exception class; no filesystem write. -/
def validate_markdown_file (ex isf rd : Bool) (st : St) : Except (Err × St) St :=
  if !ex then .error (.fileNotFound, st)
  else if !isf then .error (.valueError, st)
  else if !rd then .error (.permissionError, st)
  else .ok st

/-- Lines 456-462: if the output PDF already exists, prompt; any answer
whose lowering is not `'y'` aborts via `sys.exit(0)`. -/
def overwriteGate (resp : List Char) (st : St) : Except (Err × St) St :=
  if st.fs.target.isSome then
    if isYes resp then .ok st else .error (.sysExit 0, st)
  else .ok st

/-- Lines 131-175: best-effort advisory check.  If the platform check
confirms the libraries, return; otherwise prompt, and any answer whose
lowering is not `'y'` runs `sys.exit(1)`.  No filesystem write. -/
def check_system_packages (libsFound : Bool) (resp : List Char) (st : St) :
    Except (Err × St) St :=
  if libsFound then .ok st
  else if isYes resp then .ok st
  else .error (.sysExit 1, st)

/-- Lines 181-188: if `VENV_DIR` exists, `shutil.rmtree` it; an `OSError`
is re-raised after logging. -/
def removeStaleVenv (st : St) (rmOk : Bool) : Except (Err × St) St :=
  if st.fs.venv.isSome then
    if rmOk then .ok { st with fs := { st.fs with venv := none } }
    else .error (.osError, st)
  else .ok st

/-- Lines 178-194: remove any stale `VENV_DIR`, run `python -m venv
VENV_DIR` (tagging the directory with this attempt's generation `gen`),
and set `venv_created = True` only after that subprocess succeeds. -/
def create_virtual_environment (st : St) (rmStaleOk : Bool) (res : VenvRes)
    (gen : Nat) : Except (Err × St) St :=
  match removeStaleVenv st rmStaleOk with
  | .error e => .error e
  | .ok st1 =>
    match res with
    | .ok =>
      .ok { st1 with fs := { st1.fs with venv := some gen }, venv_created := true }
    | .failLeavingDir =>
      .error (.calledProcessError, { st1 with fs := { st1.fs with venv := some gen } })
    | .failNoDir => .error (.calledProcessError, st1)

/-- State after a successful provisioning attempt `gen`: `VENV_DIR`
holds exactly that attempt's artifacts and `venv_created` is true. -/
def provisionedSt (st : St) (gen : Nat) : St :=
  { st with fs := { st.fs with venv := some gen }, venv_created := true }

/-- Lines 212-224: upgrade pip, then install the two pinned packages in
order; each subprocess may fail with `CalledProcessError`.  All writes
land inside `VENV_DIR`, which the model represents as a whole. -/
def install_dependencies (st : St) (upOk i1 i2 : Bool) : Except (Err × St) St :=
  if !upOk then .error (.calledProcessError, st)
  else if !i1 then .error (.calledProcessError, st)
  else if !i2 then .error (.calledProcessError, st)
  else .ok st

/-- Lines 398-400: `tempfile.NamedTemporaryFile(delete=False)` writes the
conversion script to a fresh temporary file `tid`. -/
def writeTempScript (st : St) (tid : Nat) : St :=
  { st with fs := { st.fs with temp := tid :: st.fs.temp } }

/-- Lines 409-411: the `finally` block unlinks the temporary script if it
still exists. -/
def removeTempScript (st : St) (tid : Nat) : St :=
  { st with fs := { st.fs with temp := st.fs.temp.erase tid } }

/-- Lines 250-411: write the temporary conversion script, run it in the
venv (on success the nested process writes the PDF bytes to the target;
on failure it exits non-zero having written nothing, which `run_command`
turns into `CalledProcessError`), and unconditionally unlink the script
in the `finally` block. -/
def convert_markdown_to_pdf (st : St) (tid : Nat) (convOk : Bool)
    (pdf : List Nat) : Except (Err × St) St :=
  let st1 := writeTempScript st tid
  if convOk then
    let st2 := { st1 with fs := { st1.fs with target := some pdf } }
    .ok (removeTempScript st2 tid)
  else
    .error (.calledProcessError, removeTempScript st1 tid)

/-- Projection of an `Except` lifecycle result onto the state it carries
(the state at normal return, or at the moment the exception was raised). -/
def resultState : Except (Err × St) St → St
  | .ok st => st
  | .error (_, st) => st

/-- Outcomes of all external interactions of one run of `main`. -/
structure Oracle where
  srcExists : Bool
  srcIsFile : Bool
  srcReadable : Bool
  overwriteResp : List Char
  libsFound : Bool
  continueResp : List Char
  rmStaleOk : Bool
  venvRes : VenvRes
  gen : Nat
  pipUpgradeOk : Bool
  pipInstall1Ok : Bool
  pipInstall2Ok : Bool
  tempId : Nat
  convOk : Bool
  pdfBytes : List Nat
  rmCleanupOk : Bool

/-- Sequential composition in the `try` block: an exception propagates,
a normal value flows on. -/
def andThen (x : Except (Err × St) St) (f : St → Except (Err × St) St) :
    Except (Err × St) St :=
  match x with
  | .error e => .error e
  | .ok st => f st

/-- The `try` block of `main` (lines 450-490): validate, gate the
overwrite, run the advisory check, arm the lifecycle guard
(`cleanup_required = True`, line 469), provision, install, convert, and
clean up on the success path (step 6). -/
def mainTry (o : Oracle) (st0 : St) : Except (Err × St) St :=
  andThen (validate_markdown_file o.srcExists o.srcIsFile o.srcReadable st0) fun st =>
  andThen (overwriteGate o.overwriteResp st) fun st =>
  andThen (check_system_packages o.libsFound o.continueResp st) fun st =>
  andThen (.ok { st with cleanup_required := true }) fun st =>
  andThen (create_virtual_environment st o.rmStaleOk o.venvRes o.gen) fun st =>
  andThen (install_dependencies st o.pipUpgradeOk o.pipInstall1Ok o.pipInstall2Ok) fun st =>
  andThen (convert_markdown_to_pdf st o.tempId o.convOk o.pdfBytes) fun st =>
  .ok (cleanup_environment st o.rmCleanupOk)

/-- One full process run of `main` (lines 433-506 plus process exit):
normal return exits 0; a propagating `SystemExit(n)` exits `n` untouched
by the handlers; every other exception is caught at lines 492-506, runs
`cleanup_environment()`, and exits 1. -/
def mainRun (o : Oracle) (st0 : St) : Nat × St :=
  match mainTry o st0 with
  | .ok st => (0, st)
  | .error (.sysExit n, st) => (n, st)
  | .error (_, st) => (1, cleanup_environment st o.rmCleanupOk)

/-! ## Sample inputs used by witnesses and counterexamples -/

/-- Baseline oracle: valid source, no interactive decline, every
subprocess succeeds. -/
def oBase : Oracle :=
  { srcExists := true, srcIsFile := true, srcReadable := true,
    overwriteResp := ['y'], libsFound := true, continueResp := ['y'],
    rmStaleOk := true, venvRes := .ok, gen := 1,
    pipUpgradeOk := true, pipInstall1Ok := true, pipInstall2Ok := true,
    tempId := 0, convOk := true, pdfBytes := [37, 80, 68, 70],
    rmCleanupOk := true }

/-- Run in which the `pip install --upgrade pip` subprocess fails. -/
def oPipFail : Oracle := { oBase with pipUpgradeOk := false }

/-- Run in which `python -m venv VENV_DIR` fails after creating the
directory. -/
def oVenvFail : Oracle := { oBase with venvRes := .failLeavingDir }

/-- Run on a nonexistent source path. -/
def oBadSrc : Oracle := { oBase with srcExists := false }

/-- Run in which the user answers `n` to the overwrite prompt. -/
def oDecline : Oracle := { oBase with overwriteResp := ['n'] }

/-- Run in which the advisory library check fails and the user answers
`n` to "Do you want to continue anyway?". -/
def oNoLibs : Oracle := { oBase with libsFound := false, continueResp := ['n'] }

/-- A state after arming and provisioning: both flags set, `VENV_DIR`
on disk. -/
def sampleArmed : St :=
  { fs := { venv := some 1, target := none, temp := [] },
    cleanup_required := true, venv_created := true }

/-- Start-up state in which the output PDF already exists (bytes
`%PDF`). -/
def targetSt : St :=
  { fs := { venv := none, target := some [37, 80, 68, 70], temp := [] },
    cleanup_required := false, venv_created := false }

end Md2Pdf

/-! ## Helper lemmas: occurrence counting and `strReplace` -/

namespace Md2Pdf

set_option maxRecDepth 40000

theorem countOccs_eq_zero {t s : List Char} (ht : t ≠ []) :
    countOccs t s = 0 ↔ ∀ i, ¬ t <+: s.drop i := by
  unfold countOccs
  rw [List.countP_eq_zero]
  constructor
  · intro H i hpre
    by_cases hi : i < s.length + 1
    · exact H i (List.mem_range.mpr hi)
        (by simpa [ List.isPrefixOf_iff_prefix] using hpre)
    · have hnil : s.drop i = [] := List.drop_eq_nil_of_le (by omega)
      rw [hnil] at hpre
      exact ht (List.prefix_nil.mp hpre)
  · intro H i _ hp
    exact H i (by simpa [ List.isPrefixOf_iff_prefix] using hp)

theorem countOccs_cons_eq_zero {t : List Char} {c : Char} {rest : List Char}
    (h : countOccs t (c :: rest) = 0) :
    ¬ t.isPrefixOf (c :: rest) ∧ countOccs t rest = 0 := by
  unfold countOccs at h ⊢
  rw [List.countP_eq_zero] at h ⊢
  constructor
  · intro hp
    exact h 0 (List.mem_range.mpr (by omega)) (by simpa using hp)
  · intro i hi hp
    have := h (i + 1) (List.mem_range.mpr (by simp at hi ⊢; omega))
    simp only [List.drop_succ_cons] at this
    exact this hp

theorem strReplace_eq_self {old new s : List Char} (h : countOccs old s = 0) :
    strReplace old new s = s := by
  induction s with
  | nil => rw [strReplace]
  | cons c rest ih =>
    obtain ⟨h0, h1⟩ := countOccs_cons_eq_zero h
    rw [strReplace, dif_neg (fun hc => h0 hc.2), ih h1]

theorem strReplace_append (old new pre rest : List Char) (hold : old ≠ [])
    (hpre : ∀ i, i < pre.length → ¬ old.isPrefixOf ((pre ++ (old ++ rest)).drop i)) :
    strReplace old new (pre ++ (old ++ rest)) = pre ++ (new ++ strReplace old new rest) := by
  induction pre with
  | nil =>
    simp only [List.nil_append]
    cases old with
    | nil => exact absurd rfl hold
    | cons a old' =>
      rw [List.cons_append, strReplace,
        dif_pos ⟨hold, by
          rw [ List.isPrefixOf_iff_prefix, ← List.cons_append]
          exact List.prefix_append _ _⟩]
      rw [← List.cons_append, List.drop_left]
  | cons c pre' ih =>
    have h0 : ¬ old.isPrefixOf ((c :: pre' ++ (old ++ rest)).drop 0) :=
      hpre 0 (by simp)
    rw [List.drop_zero] at h0
    rw [List.cons_append, strReplace,
      dif_neg (fun hc => h0 (by rw [List.cons_append]; exact hc.2))]
    rw [ih (fun i hi => by
      have := hpre (i + 1) (by simp; omega)
      rw [List.cons_append, List.drop_succ_cons] at this
      exact this)]
    rfl

theorem countOccs_append_zero {t x y : List Char} (ht : t ≠ [])
    (hx : countOccs t x = 0) (hy : countOccs t y = 0)
    (hspan : ∀ k, 0 < k → k < t.length → t.take k <:+ x → t.drop k <+: y → False) :
    countOccs t (x ++ y) = 0 := by
  rw [countOccs_eq_zero ht] at hx hy ⊢
  intro i hp
  rcases Nat.lt_or_ge i x.length with hi | hi
  · rw [List.drop_append_of_le_length (Nat.le_of_lt hi)] at hp
    rcases le_or_lt t.length (x.length - i) with hlen | hlen
    · exact hx i (List.prefix_of_prefix_length_le hp (List.prefix_append _ _)
        (by simp; omega))
    · have hdt : x.drop i <+: t :=
        List.prefix_of_prefix_length_le (List.prefix_append _ _) hp (by simp; omega)
      have htake : x.drop i = t.take (x.length - i) := by
        have := List.prefix_iff_eq_take.mp hdt
        rwa [List.length_drop] at this
      have hsuf : t.take (x.length - i) <:+ x := htake ▸ List.drop_suffix i x
      have hdrop : t.drop (x.length - i) <+: y := by
        have hp' : t.take (x.length - i) ++ t.drop (x.length - i) <+:
            t.take (x.length - i) ++ y := by
          rw [List.take_append_drop, ← htake]
          exact hp
        exact (List.prefix_append_right_inj _).mp hp'
      exact hspan (x.length - i) (by omega) hlen hsuf hdrop
  · obtain ⟨n, rfl⟩ : ∃ n, i = x.length + n := ⟨i - x.length, by omega⟩
    rw [List.drop_append] at hp
    exact hy n hp

theorem mem_of_take_suffix {t x : List Char} {k : Nat} {c : Char}
    (hk1 : 0 < k) (hk2 : k ≤ t.length) (hsuf : t.take k <:+ x)
    (hlast : x.getLast? = some c) : c ∈ t := by
  have hne : t.take k ≠ [] := by
    intro hnil
    have h0 : (t.take k).length = 0 := by rw [hnil]; rfl
    rw [List.length_take] at h0
    omega
  obtain ⟨w, hw⟩ := hsuf
  have hlast' : x.getLast? = (t.take k).getLast? := by
    rw [← hw, List.getLast?_append]
    cases hh : (t.take k).getLast? with
    | none => exact absurd (List.getLast?_eq_none_iff.mp hh) hne
    | some d => rfl
  rw [hlast] at hlast'
  exact List.take_subset k t (List.mem_of_getLast?_eq_some hlast'.symm)

theorem mem_of_drop_prefix {t y : List Char} {k : Nat} {c : Char}
    (hk : k < t.length) (hp : t.drop k <+: y)
    (hhead : y.head? = some c) : c ∈ t := by
  have hne : t.drop k ≠ [] := by
    intro hnil
    have h0 : (t.drop k).length = 0 := by rw [hnil]; rfl
    rw [List.length_drop] at h0
    omega
  obtain ⟨w, hw⟩ := hp
  have hhead' : y.head? = (t.drop k).head? := by
    rw [← hw, List.head?_append]
    cases hh : (t.drop k).head? with
    | none => exact absurd (List.head?_eq_none_iff.mp hh) hne
    | some d => rfl
  rw [hhead] at hhead'
  exact List.drop_subset k t (List.mem_of_mem_head? (Option.mem_def.mpr hhead'.symm))

/-! ## Helper lemmas: the concrete compose stage -/

theorem contentToken_ne_nil : contentToken ≠ [] := by decide

theorem composeDocument_eq (content : List Char) :
    composeDocument content = templatePre ++ (content ++ templatePost) := by
  have hsplit : htmlTemplate = templatePre ++ (contentToken ++ templatePost) := by decide
  have hpre : ∀ i, i < templatePre.length →
      ¬ contentToken.isPrefixOf ((templatePre ++ (contentToken ++ templatePost)).drop i) := by
    decide
  rw [composeDocument, hsplit,
    strReplace_append contentToken content templatePre templatePost contentToken_ne_nil hpre,
    strReplace_eq_self (by decide)]

theorem residual_zero {content : List Char}
    (h : countOccs contentToken content = 0) :
    countOccs contentToken (templatePre ++ (content ++ templatePost)) = 0 := by
  apply countOccs_append_zero contentToken_ne_nil (by decide)
  · apply countOccs_append_zero contentToken_ne_nil h (by decide)
    intro k hk1 hk2 _ hdrop
    have hmem : '\n' ∈ contentToken :=
      mem_of_drop_prefix hk2 hdrop (by decide)
    exact absurd hmem (by decide)
  · intro k hk1 hk2 hsuf _
    have hmem : '\n' ∈ contentToken :=
      mem_of_take_suffix hk1 (Nat.le_of_lt hk2) hsuf (by decide)
    exact absurd hmem (by decide)

/-! ## Helper lemmas: the `response.lower() != 'y'` test -/

theorem char_toNat_ofNat {n : Nat} (h : n < 55296) : (Char.ofNat n).toNat = n := by
  rw [Char.ofNat, dif_pos (Or.inl h)]
  rfl

theorem toLower_eq_y {c : Char} (h : c.toLower = 'y') : c = 'y' ∨ c = 'Y' := by
  rw [Char.toLower] at h
  by_cases hc : c.toNat ≥ 65 ∧ c.toNat ≤ 90
  · rw [if_pos hc] at h
    right
    have hval : (Char.ofNat (c.toNat + 32)).toNat = 121 := by rw [h]; rfl
    rw [char_toNat_ofNat (by omega)] at hval
    have h89 : c.toNat = 89 := by omega
    have hc' := Char.ofNat_toNat c
    rw [h89] at hc'
    rw [← hc']
  · rw [if_neg hc] at h
    exact Or.inl h

theorem isYes_iff (r : List Char) : isYes r = true ↔ r = ['y'] ∨ r = ['Y'] := by
  constructor
  · intro h
    have hm : r.map Char.toLower = ['y'] := by simpa [isYes] using h
    cases r with
    | nil => simp at hm
    | cons c t =>
      simp only [List.map_cons, List.cons.injEq] at hm
      obtain ⟨hc, ht⟩ := hm
      have ht' : t = [] := by simpa using ht
      subst ht'
      rcases toLower_eq_y hc with h | h
      · exact Or.inl (by rw [h])
      · exact Or.inr (by rw [h])
  · rintro (rfl | rfl) <;> decide

theorem isYes_eq_false {r : List Char} (h1 : r ≠ ['y']) (h2 : r ≠ ['Y']) :
    isYes r = false := by
  by_cases h : isYes r = true
  · rcases (isYes_iff r).mp h with h' | h'
    · exact absurd h' h1
    · exact absurd h' h2
  · simpa using h

end Md2Pdf

/-! ## Lifecycle helper lemmas -/

namespace Md2Pdf

theorem mainRun_fail_after_provision (o : Oracle) (st0 : St)
    (hse : o.srcExists = true) (hsf : o.srcIsFile = true) (hsr : o.srcReadable = true)
    (hgate : st0.fs.target.isSome = true → isYes o.overwriteResp = true)
    (hsys : o.libsFound = true ∨ isYes o.continueResp = true)
    (hstale : st0.fs.venv.isSome = true → o.rmStaleOk = true)
    (hvenv : o.venvRes = VenvRes.ok)
    (hfail : o.pipUpgradeOk = false ∨ o.pipInstall1Ok = false ∨
      o.pipInstall2Ok = false ∨ o.convOk = false)
    (hrm : o.rmCleanupOk = true) :
    (mainRun o st0).1 = 1 ∧ (mainRun o st0).2.fs.venv = none := by
  obtain ⟨se, sf, sr, ores, lf, cres, rso, vres, g, pu, p1, p2, tid, cv, pdf, rc⟩ := o
  obtain ⟨⟨v, tgt, tmp⟩, cr, vc⟩ := st0
  simp only at hse hsf hsr hgate hsys hstale hvenv hfail hrm
  subst hse hsf hsr hvenv hrm
  have hg : overwriteGate ores ⟨⟨v, tgt, tmp⟩, cr, vc⟩ = .ok ⟨⟨v, tgt, tmp⟩, cr, vc⟩ := by
    cases tgt with
    | none => simp [overwriteGate]
    | some b => simp [overwriteGate, hgate rfl]
  have hcs : ∀ st : St, check_system_packages lf cres st = .ok st := by
    intro st
    rcases hsys with h | h
    · simp [check_system_packages, h]
    · cases lf <;> simp [check_system_packages, h]
  have hcv : create_virtual_environment ⟨⟨v, tgt, tmp⟩, true, vc⟩ rso .ok g =
      .ok ⟨⟨some g, tgt, tmp⟩, true, true⟩ := by
    cases v with
    | none => simp [create_virtual_environment, removeStaleVenv]
    | some g0 =>
      have h := hstale rfl
      subst h
      simp [create_virtual_environment, removeStaleVenv]
  cases pu <;> cases p1 <;> cases p2 <;> cases cv <;>
    simp_all [mainRun, mainTry, andThen, validate_markdown_file,
      install_dependencies, convert_markdown_to_pdf, writeTempScript,
      removeTempScript, cleanup_environment, removeVenvDir]

theorem signal_handler_armed (st : St)
    (h1 : st.cleanup_required = true) (h2 : st.venv_created = true) :
    (signal_handler st true).2.fs.venv = none := by
  obtain ⟨⟨v, tgt, tmp⟩, cr, vc⟩ := st
  simp only at h1 h2
  subst h1 h2
  cases v <;> simp [signal_handler, cleanup_environment, removeVenvDir]

end Md2Pdf

/-! ## Claim theorems -/

namespace Md2Pdf

set_option maxRecDepth 40000

/-- C1 (amended): after the lifecycle guard is armed, any
dependency-install failure or conversion failure — and likewise an
asynchronous interrupt once `venv_created` is set — terminates the
process with `VENV_DIR` absent, provided the cleanup removal itself
succeeds.  (As stated the claim is false: a provisioning subprocess
failure that leaves a partially created directory terminates with the
directory still on disk, because `venv_created` is still `False` and
`cleanup_environment` therefore returns without removing it; see the
counterexample.) -/
theorem C1_cleanup_totality :
    (∀ (o : Oracle) (st0 : St),
      o.srcExists = true → o.srcIsFile = true → o.srcReadable = true →
      (st0.fs.target.isSome = true → isYes o.overwriteResp = true) →
      (o.libsFound = true ∨ isYes o.continueResp = true) →
      (st0.fs.venv.isSome = true → o.rmStaleOk = true) →
      o.venvRes = VenvRes.ok →
      (o.pipUpgradeOk = false ∨ o.pipInstall1Ok = false ∨
        o.pipInstall2Ok = false ∨ o.convOk = false) →
      o.rmCleanupOk = true →
      (mainRun o st0).1 = 1 ∧ (mainRun o st0).2.fs.venv = none) ∧
    (∀ st : St, st.cleanup_required = true → st.venv_created = true →
      (signal_handler st true).2.fs.venv = none) :=
  ⟨fun o st0 hse hsf hsr hgate hsys hstale hvenv hfail hrm =>
    mainRun_fail_after_provision o st0 hse hsf hsr hgate hsys hstale hvenv hfail hrm,
   fun st h1 h2 => signal_handler_armed st h1 h2⟩

theorem C1_cleanup_totality_witness :
    ((mainRun oPipFail initSt).1 = 1 ∧ (mainRun oPipFail initSt).2.fs.venv = none) ∧
    (signal_handler sampleArmed true).2.fs.venv = none :=
  ⟨C1_cleanup_totality.1 oPipFail initSt rfl rfl rfl (by decide) (Or.inl rfl)
      (by decide) rfl (Or.inl rfl) rfl,
    C1_cleanup_totality.2 sampleArmed rfl rfl⟩

/-- C1, counterexample to the claim as stated: with the lifecycle guard
armed (`cleanup_required = true` in the final state), the
`python -m venv` subprocess fails after creating the directory; the
process terminates with exit code 1 and `VENV_DIR` still on disk. -/
theorem C1_counterexample :
    (mainRun oVenvFail initSt).1 = 1 ∧
    (mainRun oVenvFail initSt).2.cleanup_required = true ∧
    (mainRun oVenvFail initSt).2.fs.venv = some 1 := by decide

/-- C2 (amended): the teardown body runs exactly when both lifecycle
flags are true; executing it never changes either flag (in particular it
does not reset `venv_created`); repeated physical removal attempts are
prevented by the directory-existence check rather than the flag, so a
call following a successful teardown changes nothing. -/
theorem C2_teardown_invariant (st : St) (rmOk r' : Bool) :
    cleanup_environment st rmOk =
      (if st.cleanup_required = true ∧ st.venv_created = true
        then removeVenvDir st rmOk else st) ∧
    (cleanup_environment st rmOk).venv_created = st.venv_created ∧
    (cleanup_environment st rmOk).cleanup_required = st.cleanup_required ∧
    cleanup_environment (cleanup_environment st true) r' = cleanup_environment st true := by
  obtain ⟨⟨v, tgt, tmp⟩, cr, vc⟩ := st
  cases cr <;> cases vc <;> cases rmOk <;> cases r' <;> cases v <;>
    simp [cleanup_environment, removeVenvDir]

/-- C2, counterexample to the claim as stated: a teardown execution with
both flags true (which removes the directory) leaves `venv_created`
equal to `true`; the function never assigns the flag. -/
theorem C2_counterexample :
    sampleArmed.cleanup_required = true ∧ sampleArmed.venv_created = true ∧
    (cleanup_environment sampleArmed true).fs.venv = none ∧
    (cleanup_environment sampleArmed true).venv_created = true := by decide

/-- C3 (amended): for intermediate HTML free of the placeholder token,
the compose stage yields exactly the template prefix, the HTML, and the
template suffix concatenated — one insertion at the placeholder's
position and no residual token; markup containing literal brace
characters leaves the surrounding template text unchanged.  (As stated
the claim is false: the output need not contain the intermediate HTML
exactly once as a substring, since the HTML may also occur in the fixed
template text; see the counterexample.) -/
theorem C3_compose_exact (content : List Char)
    (h : countOccs contentToken content = 0) :
    composeDocument content = templatePre ++ (content ++ templatePost) ∧
    countOccs contentToken (composeDocument content) = 0 := by
  refine ⟨composeDocument_eq content, ?_⟩
  rw [composeDocument_eq]
  exact residual_zero h

theorem C3_compose_exact_witness :
    countOccs contentToken ("<p>\x7bx\x7d</p>".toList) = 0 ∧
    (composeDocument ("<p>\x7bx\x7d</p>".toList) =
        templatePre ++ ("<p>\x7bx\x7d</p>".toList ++ templatePost) ∧
      countOccs contentToken (composeDocument ("<p>\x7bx\x7d</p>".toList)) = 0) :=
  ⟨by decide, C3_compose_exact ("<p>\x7bx\x7d</p>".toList) (by decide)⟩

/-- C3, counterexample to the claim as stated: the intermediate HTML
`"e"` contains no placeholder token, yet the composed document does not
contain it exactly once (the letter occurs nine times, eight of them in
the fixed template text). -/
theorem C3_counterexample :
    countOccs contentToken ['e'] = 0 ∧
    countOccs ['e'] (composeDocument ['e']) ≠ 1 := by
  constructor
  · decide
  · rw [composeDocument_eq]
    decide

/-- C4 (amended): the SIGINT handler invokes `cleanup_environment()` and
then terminates the process via `sys.exit(0)` — exit status 0, not a
non-zero one — without resuming the interrupted step; when the guard is
armed, the environment exists and removal succeeds, the final state has
no `VENV_DIR`. -/
theorem C4_interrupt_teardown (st : St) (rmOk : Bool) :
    signal_handler st rmOk = (0, cleanup_environment st rmOk) ∧
    (st.cleanup_required = true → st.venv_created = true → rmOk = true →
      (signal_handler st rmOk).2.fs.venv = none) := by
  refine ⟨rfl, fun h1 h2 h3 => ?_⟩
  subst h3
  exact signal_handler_armed st h1 h2

theorem C4_interrupt_teardown_witness :
    signal_handler sampleArmed true = (0, cleanup_environment sampleArmed true) ∧
    (signal_handler sampleArmed true).2.fs.venv = none :=
  ⟨(C4_interrupt_teardown sampleArmed true).1,
    (C4_interrupt_teardown sampleArmed true).2 rfl rfl rfl⟩

/-- C4, counterexample to the claim as stated: the handler terminates
the process with exit status 0 (line 67 is `sys.exit(0)`), not with a
non-zero status. -/
theorem C4_counterexample : (signal_handler sampleArmed true).1 = 0 := rfl

/-- C5: a run whose input validation fails (nonexistent, non-regular or
unreadable source path) exits with code 1 and a state identical to the
initial one: no runtime directory is created and no filesystem entity is
touched.  (`cleanup_required` is `False` at start-up, so the handler's
`cleanup_environment()` call returns immediately.) -/
theorem C5_fast_exit (o : Oracle) (st0 : St)
    (hflag : st0.cleanup_required = false)
    (hbad : o.srcExists = false ∨ o.srcIsFile = false ∨ o.srcReadable = false) :
    mainRun o st0 = (1, st0) := by
  obtain ⟨se, sf, sr, ores, lf, cres, rso, vres, g, pu, p1, p2, tid, cv, pdf, rc⟩ := o
  simp only at hbad
  cases se <;> cases sf <;> cases sr <;>
    simp_all [mainRun, mainTry, andThen, validate_markdown_file,
      cleanup_environment, hflag]

theorem C5_fast_exit_witness :
    initSt.cleanup_required = false ∧ mainRun oBadSrc initSt = (1, initSt) :=
  ⟨rfl, C5_fast_exit oBadSrc initSt rfl (Or.inl rfl)⟩

/-- C6: provisioning is idempotent — a pre-existing `VENV_DIR` is
removed before the new environment is created, and provisioning twice in
a row leaves exactly the second attempt's directory with no artifacts of
the first. -/
theorem C6_idempotent_provision (st : St) (g1 g2 : Nat) :
    (st.fs.venv.isSome = true →
      removeStaleVenv st true = .ok { st with fs := { st.fs with venv := none } }) ∧
    create_virtual_environment st true .ok g1 = .ok (provisionedSt st g1) ∧
    create_virtual_environment (provisionedSt st g1) true .ok g2 =
      .ok (provisionedSt st g2) := by
  obtain ⟨⟨v, tgt, tmp⟩, cr, vc⟩ := st
  refine ⟨fun h => ?_, ?_, ?_⟩
  · cases v with
    | none => simp at h
    | some g0 => simp [removeStaleVenv]
  · cases v <;> simp [create_virtual_environment, removeStaleVenv, provisionedSt]
  · simp [create_virtual_environment, removeStaleVenv, provisionedSt]

theorem C6_idempotent_provision_witness :
    sampleArmed.fs.venv.isSome = true ∧
    (removeStaleVenv sampleArmed true =
        .ok { sampleArmed with fs := { sampleArmed.fs with venv := none } } ∧
      create_virtual_environment sampleArmed true .ok 2 = .ok (provisionedSt sampleArmed 2) ∧
      create_virtual_environment (provisionedSt sampleArmed 2) true .ok 3 =
        .ok (provisionedSt sampleArmed 3)) :=
  ⟨rfl, ⟨(C6_idempotent_provision sampleArmed 2 3).1 rfl,
    (C6_idempotent_provision sampleArmed 2 3).2.1,
    (C6_idempotent_provision sampleArmed 2 3).2.2⟩⟩

/-- C7: when the target PDF exists and the user's reply is anything
other than `y` or `Y`, the run exits via `sys.exit(0)` with the state
unchanged — the target's bytes, the absence of `VENV_DIR` and every
other filesystem entity are exactly as at start. -/
theorem C7_overwrite_declined (o : Oracle) (st0 : St)
    (hse : o.srcExists = true) (hsf : o.srcIsFile = true) (hsr : o.srcReadable = true)
    (htgt : st0.fs.target.isSome = true)
    (h1 : o.overwriteResp ≠ ['y']) (h2 : o.overwriteResp ≠ ['Y']) :
    mainRun o st0 = (0, st0) := by
  obtain ⟨se, sf, sr, ores, lf, cres, rso, vres, g, pu, p1, p2, tid, cv, pdf, rc⟩ := o
  simp only at hse hsf hsr h1 h2
  subst hse hsf hsr
  have hy : isYes ores = false := isYes_eq_false h1 h2
  simp [mainRun, mainTry, andThen, validate_markdown_file, overwriteGate, htgt, hy]

theorem C7_overwrite_declined_witness :
    targetSt.fs.target.isSome = true ∧
    oDecline.overwriteResp ≠ ['y'] ∧ oDecline.overwriteResp ≠ ['Y'] ∧
    mainRun oDecline targetSt = (0, targetSt) :=
  ⟨rfl, by decide, by decide,
    C7_overwrite_declined oDecline targetSt rfl rfl rfl rfl (by decide) (by decide)⟩

/-- C8: the output path is the source path with its extension replaced
by `.pdf` (`md_path.with_suffix('.pdf')`, line 454): `report.md` maps to
`report.pdf` and `notes.markdown` maps to `notes.pdf`. -/
theorem C8_output_derivation :
    withSuffix "report.md".toList ".pdf".toList = "report.pdf".toList ∧
    withSuffix "notes.markdown".toList ".pdf".toList = "notes.pdf".toList := by
  constructor <;> decide

/-- C9: the conversion step creates exactly one temporary script, and on
both the success and the failure outcome of the nested process the
`finally` block removes it: the final set of temporary files equals the
initial one. -/
theorem C9_temp_script (st : St) (tid : Nat) (convOk : Bool) (pdf : List Nat) :
    (writeTempScript st tid).fs.temp = tid :: st.fs.temp ∧
    (resultState (convert_markdown_to_pdf st tid convOk pdf)).fs.temp = st.fs.temp := by
  cases convOk <;>
    simp [writeTempScript, convert_markdown_to_pdf, removeTempScript, resultState]

/-- C10: declining the advisory check's "continue anyway?" prompt (any
reply other than `y`/`Y`) exits via `sys.exit(1)` before the lifecycle
guard is armed: exit code 1 with the state — and hence the filesystem —
exactly as at start, no runtime directory created. -/
theorem C10_syscheck_declined (o : Oracle) (st0 : St)
    (hse : o.srcExists = true) (hsf : o.srcIsFile = true) (hsr : o.srcReadable = true)
    (hgate : st0.fs.target.isSome = true → isYes o.overwriteResp = true)
    (hlibs : o.libsFound = false)
    (h1 : o.continueResp ≠ ['y']) (h2 : o.continueResp ≠ ['Y']) :
    mainRun o st0 = (1, st0) := by
  obtain ⟨se, sf, sr, ores, lf, cres, rso, vres, g, pu, p1, p2, tid, cv, pdf, rc⟩ := o
  obtain ⟨⟨v, tgt, tmp⟩, cr, vc⟩ := st0
  simp only at hse hsf hsr hgate hlibs h1 h2
  subst hse hsf hsr hlibs
  have hy : isYes cres = false := isYes_eq_false h1 h2
  have hg : overwriteGate ores ⟨⟨v, tgt, tmp⟩, cr, vc⟩ = .ok ⟨⟨v, tgt, tmp⟩, cr, vc⟩ := by
    cases tgt with
    | none => simp [overwriteGate]
    | some b => simp [overwriteGate, hgate rfl]
  simp [mainRun, mainTry, andThen, validate_markdown_file, hg,
    check_system_packages, hy]

theorem C10_syscheck_declined_witness :
    oNoLibs.libsFound = false ∧
    oNoLibs.continueResp ≠ ['y'] ∧ oNoLibs.continueResp ≠ ['Y'] ∧
    mainRun oNoLibs initSt = (1, initSt) :=
  ⟨rfl, by decide, by decide,
    C10_syscheck_declined oNoLibs initSt rfl rfl rfl (by decide) rfl
      (by decide) (by decide)⟩

end Md2Pdf
